import Mathlib

/-
Verification of the tenant-provisioning core of the `accompany` onboarding
application: the credential store (app/core/services/credentials.py), the
database provisioner and schema/seed operations (app/core/db/db_manager.py),
the provisioning pipeline (app/modules/onboarding/services/onboarding_service.py,
provision_site) and the finish-stream endpoint
(app/modules/onboarding/routers/finish_setup_router.py, finish_stream).

The Python code is shallowly embedded: external effects (the PostgreSQL
server, password hashing, os randomness, file-system failures) are supplied
as explicit oracle inputs; the credential directory and the target database
are threaded as explicit state.  Python strings are Lean Strings, with the
relevant str methods re-expressed over the underlying character lists so
that every definition is kernel-executable.
-/

namespace Accompany

/-! ## Python string primitives, expressed over character lists -/

/-- Python's `str.startswith`, as used by the pipeline on progress messages. -/
def pyStartsWith (s t : String) : Bool := t.data.isPrefixOf s.data

/-- Python's `str.strip()`: remove leading and trailing whitespace. -/
def pyStrip (s : String) : String :=
  String.mk (((s.data.dropWhile Char.isWhitespace).reverse.dropWhile Char.isWhitespace).reverse)

/-- Python's `str.upper()` on ASCII content (used for language labels). -/
def pyUpper (s : String) : String := String.mk (s.data.map Char.toUpper)

/-- Python's `str.lower()` on ASCII content (used for the ssl flag cast). -/
def pyLower (s : String) : String := String.mk (s.data.map Char.toLower)

/-! ## Decimal representation and parsing

Python's `str(int)` / `int(str)` pair, used by the credential store when a
port number is written to and read back from an INI file.  Implemented by
structural recursion on a fuel bound so the kernel can evaluate it. -/

/-- Character for a single decimal digit (codepoint 48 + digit). -/
def digitChar (d : Nat) : Char :=
  if d < 10 then Char.ofNat (48 + d) else '*'

/-- Decimal digit denoted by a character, if any. -/
def charDigit? (c : Char) : Option Nat :=
  if 48 ≤ c.toNat ∧ c.toNat ≤ 57 then some (c.toNat - 48) else none

/-- Little-endian decimal digits of `n` (empty for `n = 0`), with fuel. -/
def natDigitsRev : Nat → Nat → List Nat
  | 0, _ => []
  | _ + 1, 0 => []
  | fuel + 1, n + 1 => (n + 1) % 10 :: natDigitsRev fuel ((n + 1) / 10)

/-- Value of a little-endian digit list. -/
def littleVal (ds : List Nat) : Nat := ds.foldr (fun d acc => d + 10 * acc) 0

/-- Value of a big-endian digit list (how a human-written numeral is read). -/
def bigVal (ds : List Nat) : Nat := ds.foldl (fun acc d => acc * 10 + d) 0

/-- Python's `str(n)` for a natural number. -/
def natRepr (n : Nat) : String :=
  if n = 0 then "0" else String.mk (((natDigitsRev n n).reverse.map digitChar))

/-- Python's `str(i)` for an integer. -/
def intRepr : Int → String
  | .ofNat n => natRepr n
  | .negSucc n => "-" ++ natRepr (n + 1)

/-- Parse a non-empty all-digit character list, as Python's `int` does. -/
def parseNatChars? (l : List Char) : Option Nat :=
  match l.mapM charDigit? with
  | some ds => if l.isEmpty then none else some (bigVal ds)
  | none => none

/-- Python's `int(s)` (restricted to the numerals `str` itself produces). -/
def parseInt? (s : String) : Option Int :=
  match s.data with
  | [] => none
  | c :: rest =>
    if c = '-' then (parseNatChars? rest).map (fun n => -(n : Int))
    else (parseNatChars? (c :: rest)).map (fun n => (n : Int))

theorem littleVal_natDigitsRev (fuel n : Nat) (h : n ≤ fuel) :
    littleVal (natDigitsRev fuel n) = n := by
  induction fuel generalizing n with
  | zero => interval_cases n; rfl
  | succ fuel ih =>
    match n with
    | 0 => rfl
    | m + 1 =>
      have hdiv : (m + 1) / 10 ≤ fuel := by
        have := Nat.div_lt_self (Nat.succ_pos m) (by norm_num : (1:Nat) < 10)
        omega
      simp only [natDigitsRev, littleVal, List.foldr_cons]
      have := ih ((m + 1) / 10) hdiv
      simp only [littleVal] at this
      rw [this]
      omega

theorem natDigitsRev_lt_ten (fuel n : Nat) : ∀ d ∈ natDigitsRev fuel n, d < 10 := by
  induction fuel generalizing n with
  | zero => simp [natDigitsRev]
  | succ fuel ih =>
    match n with
    | 0 => simp [natDigitsRev]
    | m + 1 =>
      simp only [natDigitsRev, List.mem_cons]
      rintro d (rfl | hd)
      · exact Nat.mod_lt _ (by norm_num)
      · exact ih _ d hd

theorem charDigit?_digitChar (d : Nat) (h : d < 10) : charDigit? (digitChar d) = some d := by
  interval_cases d <;> rfl

theorem mapM_charDigit?_map_digitChar (ds : List Nat) (h : ∀ d ∈ ds, d < 10) :
    (ds.map digitChar).mapM charDigit? = some ds := by
  induction ds with
  | nil => rfl
  | cons d ds ih =>
    simp only [List.map_cons, List.mapM_cons]
    rw [charDigit?_digitChar d (h d (List.mem_cons_self d ds)),
      ih (fun x hx => h x (List.mem_cons_of_mem d hx))]
    rfl

theorem bigVal_reverse (ds : List Nat) : bigVal ds.reverse = littleVal ds := by
  induction ds with
  | nil => rfl
  | cons d ds ih =>
    simp only [List.reverse_cons, bigVal, List.foldl_append, List.foldl_cons, List.foldl_nil,
      littleVal, List.foldr_cons]
    simp only [bigVal, littleVal] at ih
    rw [ih]
    omega

theorem parseNatChars?_repr (n : Nat) (h : n ≠ 0) :
    parseNatChars? ((natDigitsRev n n).reverse.map digitChar) = some n := by
  have hne : natDigitsRev n n ≠ [] := by
    match n, h with
    | m + 1, _ => simp [natDigitsRev]
  rw [parseNatChars?]
  rw [mapM_charDigit?_map_digitChar _
    (fun d hd => natDigitsRev_lt_ten n n d (List.mem_reverse.mp hd))]
  have hemp : ((natDigitsRev n n).reverse.map digitChar).isEmpty = false := by
    simp [List.isEmpty_iff, hne]
  rw [hemp]
  simp only [Bool.false_eq_true, if_false]
  rw [bigVal_reverse, littleVal_natDigitsRev n n le_rfl]

theorem natRepr_data (n : Nat) (h : n ≠ 0) :
    (natRepr n).data = (natDigitsRev n n).reverse.map digitChar := by
  simp [natRepr, h]

theorem natRepr_chars (n : Nat) :
    ∀ c ∈ (natRepr n).data, ∃ d, d < 10 ∧ c = digitChar d := by
  intro c hc
  by_cases h : n = 0
  · subst h
    have hdat : (natRepr 0).data = ['0'] := rfl
    rw [hdat] at hc
    simp only [List.mem_singleton] at hc
    exact ⟨0, by norm_num, hc⟩
  · rw [natRepr_data n h] at hc
    rcases List.mem_map.mp hc with ⟨d, hd, rfl⟩
    exact ⟨d, natDigitsRev_lt_ten n n d (List.mem_reverse.mp hd), rfl⟩

theorem digitChar_ne_dash (d : Nat) (h : d < 10) : digitChar d ≠ '-' := by
  interval_cases d <;> decide

theorem natRepr_ne_nil (n : Nat) : (natRepr n).data ≠ [] := by
  by_cases h : n = 0
  · subst h
    intro hc
    have hdat : (natRepr 0).data = ['0'] := rfl
    rw [hdat] at hc
    exact List.cons_ne_nil _ _ hc
  · rw [natRepr_data n h]
    have hne : natDigitsRev n n ≠ [] := by
      match n, h with
      | m + 1, _ => simp [natDigitsRev]
    simp [hne]

theorem parseNat_natRepr (n : Nat) : parseNatChars? (natRepr n).data = some n := by
  by_cases h : n = 0
  · subst h; rfl
  · rw [natRepr_data n h]
    exact parseNatChars?_repr n h

theorem parseInt?_intRepr (i : Int) : parseInt? (intRepr i) = some i := by
  match i with
  | .ofNat n =>
    rw [intRepr, parseInt?]
    rcases hdata : (natRepr n).data with _ | ⟨c, rest⟩
    · exact absurd hdata (natRepr_ne_nil n)
    · have hcne : c ≠ '-' := by
        rcases natRepr_chars n c (by rw [hdata]; exact List.mem_cons_self _ _) with ⟨d, hd, rfl⟩
        exact digitChar_ne_dash d hd
      simp only [if_neg hcne]
      rw [← hdata, parseNat_natRepr n]
      rfl
  | .negSucc n =>
    rw [intRepr, parseInt?]
    have hdata : ("-" ++ natRepr (n + 1)).data = '-' :: (natRepr (n + 1)).data := by
      simp [String.data_append]
    rw [hdata]
    show (if '-' = '-' then (parseNatChars? (natRepr (n + 1)).data).map (fun n => -(n : Int))
      else _) = _
    rw [if_pos rfl, parseNat_natRepr (n + 1)]
    simp [Int.negSucc_eq]

/-! ## Credential store (app/core/services/credentials.py)

The `~/.accompany` directory is modelled as an association list from profile
name to the key/value pairs of the INI file's `[database]` section; writing
a profile prepends its section (the latest write shadows any earlier one,
as the file overwrite does on disk).  A Python value stored in the section
(`str`, `int` or `bool`) is a `CredValue`; `str(v)` is `pyStr`. -/

/-- Value of a field of a credentials dict: Python `str`, `int` or `bool`. -/
inductive CredValue where
  | str (s : String)
  | int (i : Int)
  | bool (b : Bool)
deriving DecidableEq, Repr

/-- Python's `str()` applied to a `CredValue`, as `write_db_creds` does. -/
def pyStr : CredValue → String
  | .str s => s
  | .int i => intRepr i
  | .bool b => if b then "True" else "False"

/-- Contents of the credential directory: profile name to INI section pairs. -/
def CredStore := List (String × List (String × String))

/-- Errors of the credential store: the AssertionError raised by
`write_db_creds` on a blank profile, the KeyError raised by `read_db_creds`
when no INI file exists for the profile (RawConfigParser.read silently skips
a missing file, so the "database" section lookup fails), and the ValueError
raised when the port field does not parse as an integer. -/
inductive CredError where
  | invalidProfile
  | profileNotFound
  | castError
deriving DecidableEq, Repr

/-- Exception text, as rendered into a pipeline failure message. -/
def CredError.message : CredError → String
  | .invalidProfile => "Profile name must not be empty"
  | .profileNotFound => "'database'"
  | .castError => "invalid literal for int()"

/-- Oracle for the side effects of persisting an SSL certificate: the random
hex suffix drawn from uuid4 for the PEM file name, and whether the PEM file
write succeeded (its exceptions are swallowed, leaving the ssl_cert key
unset). -/
structure PemOracle where
  uuidHex : String := ""
  writeOk : Bool := true

/-- PEM file path recorded in the INI file for a persisted certificate. -/
def pemPathFor (oracle : PemOracle) (profile : String) : String :=
  "~/.accompany/certs/" ++ profile ++ "-" ++ oracle.uuidHex ++ ".pem"

/-- Set a key of an INI section the way a Python dict assignment does:
overwrite in place when present, append otherwise. -/
def setSectionKey (pairs : List (String × String)) (k v : String) :
    List (String × String) :=
  if pairs.any (fun p => p.1 = k) then
    pairs.map (fun p => if p.1 = k then (k, v) else p)
  else pairs ++ [(k, v)]

/-- Embedding of `write_db_creds(profile, creds, ssl_cert_bytes)`.  The
profile must not be blank (AssertionError otherwise); the section holds
`str(k) : str(v)` for every entry of the creds dict, with keys lowercased by
RawConfigParser's optionxform; when certificate bytes are supplied and the
PEM file write succeeds, the generated PEM path is recorded under
`ssl_cert`.  Returns the updated store. -/
def write_db_creds (profile : String) (creds : List (String × CredValue))
    (ssl_cert_bytes : Option String) (pem : PemOracle) (store : CredStore) :
    Except CredError CredStore :=
  if pyStrip profile = "" then .error .invalidProfile
  else
    let pairs := creds.map (fun kv => (pyLower kv.1, pyStr kv.2))
    let pairs :=
      match ssl_cert_bytes with
      | some _ =>
        if pem.writeOk then setSectionKey pairs "ssl_cert" (pemPathFor pem profile)
        else pairs
      | none => pairs
    .ok ((profile, pairs) :: store)

/-- Section stored for a profile, if its INI file exists. -/
def storeGet (store : CredStore) (profile : String) :
    Option (List (String × String)) :=
  match store with
  | [] => none
  | (p, pairs) :: rest => if p = profile then some pairs else storeGet rest profile

/-- Values accepted as true for the ssl flag (TRUE_VALUES in the source). -/
def TRUE_VALUES : List String := ["1", "true", "yes"]

/-- Type cast applied by `read_db_creds` to one stored field: port to int,
ssl to bool, anything else kept as a string.  A port that does not parse
raises ValueError. -/
def credCast? (k v : String) : Option CredValue :=
  if k = "port" then (parseInt? v).map .int
  else if k = "ssl" then some (.bool (TRUE_VALUES.contains (pyLower v)))
  else some (.str v)

/-- Embedding of `read_db_creds(profile)`: look the INI section up and cast
every field. -/
def read_db_creds (profile : String) (store : CredStore) :
    Except CredError (List (String × CredValue)) :=
  match storeGet store profile with
  | none => .error .profileNotFound
  | some pairs =>
    match pairs.mapM (fun kv => (credCast? kv.1 kv.2).map (fun v => (kv.1, v))) with
    | some out => .ok out
    | none => .error .castError

/-! ## Database provisioner and schema/seed operations (app/core/db/db_manager.py)

The PostgreSQL server is an external effect: each operation takes an oracle
saying whether (and with what text) its database work raised an exception.
Each schema/seed operation runs inside one transaction (engine.begin), so a
raised exception leaves the table state unchanged.  The target database is
a record of the four tables, each `none` until its CREATE TABLE ran. -/

/-- POSTGRES_HOST default from app/core/config/config.py. -/
def POSTGRES_HOST : String := "127.0.0.1"

/-- POSTGRES_PORT default from app/core/config/config.py. -/
def POSTGRES_PORT : Int := 5432

/-- Character set of `generate_password`: string.ascii_letters +
string.digits + "!@#$%^&*()-_=+". -/
def PASSWORD_CHARSET : List Char :=
  "abcdefghijklmnopqrstuvwxyzABCDEFGHIJKLMNOPQRSTUVWXYZ0123456789!@#$%^&*()-_=+".data

/-- Embedding of `generate_password(length)`: one charset element per
position, each drawn through the randomness oracle `rng` (the source draws
via `secrets.choice`, a cryptographically secure generator). -/
def generate_password (rng : Nat → Nat) (length : Nat) : String :=
  String.mk ((List.range length).map
    (fun i => PASSWORD_CHARSET.getD (rng i % PASSWORD_CHARSET.length) ' '))

/-- Embedding of `create_standard_db(db_name)`.  `sqlFail` is the server
oracle: `some e` when any of the CREATE DATABASE / CREATE USER / GRANT
statements (or the connections running them) raises an exception rendered
as `e`.  On the success path the function persists the generated scoped
credentials through `write_db_creds`; that call sits inside the same
`try`, so its AssertionError on a blank name is also caught and reported
as a DB setup failure. -/
def create_standard_db (rng : Nat → Nat) (sqlFail : Option String)
    (store : CredStore) (db_name : String) :
    (Bool × List (String × CredValue) × String) × CredStore :=
  let admin_user := db_name ++ "_admin"
  let admin_pass := generate_password rng 20
  match sqlFail with
  | some e => ((false, [], "❌ DB setup failed: " ++ e), store)
  | none =>
    let creds : List (String × CredValue) :=
      [("db_name", .str db_name), ("user", .str admin_user),
       ("password", .str admin_pass), ("host", .str POSTGRES_HOST),
       ("port", .int POSTGRES_PORT), ("ssl", .bool false)]
    match write_db_creds db_name creds none {} store with
    | .error err => ((false, [], "❌ DB setup failed: " ++ err.message), store)
    | .ok store' =>
      ((true, creds,
        "✅ Created DB '" ++ db_name ++ "' with scoped admin '" ++ admin_user ++ "'"),
       store')

/-- Custom-database connection form (CustomDBData plus the certificate
fields read by `create_custom_db`). -/
structure DbForm where
  db_name : String := ""
  user : String := ""
  password : String := ""
  host : String := ""
  port : Int := 0
  ssl : Bool := false
  ssl_cert_path : Option String := none
  ssl_cert : Option String := none
deriving DecidableEq, Repr

/-- Oracle for the external effects of `create_custom_db`: whether the
certificate paths exist on disk, whether ssl.create_default_context raised
on the certificate file's contents (it runs before the try block, so that
SSLError escapes the function), the PEM bytes read, whether the asyncpg
connection attempt raised, and the PEM-write oracle of the credential
store. -/
structure CustomDbOracle where
  certPathExists : Bool := true
  sslContextFail : Option String := none
  persistCertExists : Bool := true
  certBytes : String := ""
  connectFail : Option String := none
  pem : PemOracle := {}

/-- The try block of `create_custom_db`: the connection attempt, the creds
dict, the optional PEM read, then persisting through `write_db_creds`; any
exception raised inside it (connection failure, or the AssertionError from
a blank profile name) is caught and rendered as a connection-failure
message. -/
def custom_db_try (oracle : CustomDbOracle) (store : CredStore)
    (form : DbForm) : (Bool × List (String × CredValue) × String) × CredStore :=
  match oracle.connectFail with
  | some e => ((false, [], "❌ Could not connect to remote DB: " ++ e), store)
  | none =>
    let creds : List (String × CredValue) :=
      [("db_name", .str form.db_name), ("user", .str form.user),
       ("password", .str form.password), ("host", .str form.host),
       ("port", .int form.port), ("ssl", .bool form.ssl)]
    let pem_bytes : Option String :=
      match form.ssl_cert with
      | some p => if p ≠ "" && oracle.persistCertExists then some oracle.certBytes else none
      | none => none
    match write_db_creds form.db_name creds pem_bytes oracle.pem store with
    | .error err => ((false, [], "❌ Could not connect to remote DB: " ++ err.message), store)
    | .ok store' =>
      ((true, creds,
        "✅ Connected to custom DB '" ++ form.db_name ++ "' and saved credentials."),
       store')

/-- Embedding of `create_custom_db(form)`.  Mirrors the source order: when
SSL is requested, a missing certificate path is a normal failure return,
but `ssl.create_default_context(cafile=cert_path)` runs BEFORE the try
block, so when the file exists yet is not a valid certificate the raised
SSLError escapes the function uncaught (the `.error` result); only then
does the try block run, whose exceptions are all caught. -/
def create_custom_db (oracle : CustomDbOracle) (store : CredStore)
    (form : DbForm) :
    Except String ((Bool × List (String × CredValue) × String) × CredStore) :=
  if form.ssl &&
      (match form.ssl_cert_path with
       | none => true
       | some p => p = "" || !oracle.certPathExists) then
    .ok ((false, [], "❌ SSL enabled but certificate not found on disk."), store)
  else if form.ssl then
    match oracle.sslContextFail with
    | some e => .error e
    | none => .ok (custom_db_try oracle store form)
  else .ok (custom_db_try oracle store form)

/-- Row of the users table. -/
structure UserRow where
  username : String
  hashed_password : String
  role : String
deriving DecidableEq, Repr

/-- Target database: the four tables touched by the schema/seed operations,
`none` while CREATE TABLE IF NOT EXISTS has not run.  Language rows are
(code, label); module rows are (name, enabled); company rows are
(name, industry). -/
structure Database where
  users : Option (List UserRow) := none
  company : Option (List (String × String)) := none
  languages : Option (List (String × String)) := none
  modules : Option (List (String × Bool)) := none
deriving Repr

/-- Embedding of `create_system_admin_user(engine, email, password)`:
ensure the users table, then insert one system_admin row; a username
collision raises IntegrityError and maps to the duplicate-email message,
any other exception (oracle `fail`) to the generic one; either way the
transaction rolls back. -/
def create_system_admin_user (hash : String → String) (fail : Option String)
    (db : Database) (email password : String) : (Bool × String) × Database :=
  match fail with
  | some e => ((false, "❌ Failed to create admin: " ++ e), db)
  | none =>
    let users := db.users.getD []
    if users.any (fun u => u.username = email) then
      ((false, "❌ Email '" ++ email ++ "' already exists"), db)
    else
      ((true, "✅ System admin user created"),
       { db with users := some (users ++ [⟨email, hash password, "system_admin"⟩]) })

/-- Embedding of `create_company_record(engine, name, industry)`: ensure the
company table and insert one row; an exception rolls the transaction back. -/
def create_company_record (fail : Option String) (db : Database)
    (name industry : String) : (Bool × String) × Database :=
  match fail with
  | some e => ((false, "❌ Failed to create company: " ++ e), db)
  | none =>
    ((true, "✅ Company record created"),
     { db with company := some (db.company.getD [] ++ [(name, industry)]) })

/-- INSERT ... ON CONFLICT (code) DO NOTHING into the languages table. -/
def insertLanguageRow (tbl : List (String × String)) (code label : String) :
    List (String × String) :=
  if tbl.any (fun r => r.1 = code) then tbl else tbl ++ [(code, label)]

/-- Embedding of `seed_languages(engine)`: ensure the languages table and
insert one (code, code.upper()) row per entry of the LANGUAGES list,
skipping codes already present; an exception (oracle `fail`) rolls the
transaction back and is reported only through the returned message.
The LANGUAGES constant itself is passed in as `langs`: its defining module
(app/modules/onboarding/data/constants.py as shipped here) does not contain
it, so, modelled from the spec, it is an arbitrary list of known language
codes. -/
def seed_languages (fail : Option String) (langs : List String)
    (db : Database) : String × Database :=
  match fail with
  | some e => ("❌ Failed to seed languages: " ++ e, db)
  | none =>
    let tbl := langs.foldl
      (fun acc code => insertLanguageRow acc code (pyUpper code))
      (db.languages.getD [])
    ("✔️ Languages seeded", { db with languages := some tbl })

/-- INSERT ... ON CONFLICT (name) DO NOTHING into the modules table. -/
def insertModuleRow (tbl : List (String × Bool)) (name : String) :
    List (String × Bool) :=
  if tbl.any (fun r => r.1 = name) then tbl else tbl ++ [(name, true)]

/-- Embedding of `seed_modules(engine, modules)`: ensure the modules table
and insert one (name, TRUE) row per requested module, skipping names
already present; an exception rolls the transaction back and is reported
only through the returned message. -/
def seed_modules (fail : Option String) (db : Database)
    (modules : List String) : String × Database :=
  match fail with
  | some e => ("❌ Failed to seed modules: " ++ e, db)
  | none =>
    let tbl := modules.foldl insertModuleRow (db.modules.getD [])
    ("✔️ Modules seeded", { db with modules := some tbl })

/-! ## Provisioning pipeline (onboarding_service.provision_site)

The async generator is embedded as a function from the session, the effect
oracles and the initial state to the full list of yielded messages plus a
trace of the step calls it dispatched.  Each trace entry records the call,
the outcome the pipeline saw for it (for the seed steps that is the
startswith("❌") test the source applies) and the step's returned message.
The generator's linear control flow is split into one function per step,
each producing the messages yielded from its first yield to the final
"done". -/

/-- One dispatched provisioning step call. -/
inductive StepCall where
  | createStandardDb (db_name : String)
  | createCustomDb (form : DbForm)
  | createSystemAdminUser (email password : String)
  | createCompanyRecord (name industry : String)
  | seedLanguages
  | seedModules (modules : List String)
deriving DecidableEq, Repr

/-- Position of a call in the fixed step order. -/
def StepCall.idx : StepCall → Nat
  | .createStandardDb _ => 0
  | .createCustomDb _ => 0
  | .createSystemAdminUser _ _ => 1
  | .createCompanyRecord _ _ => 2
  | .seedLanguages => 3
  | .seedModules _ => 4

/-- One entry of the run trace: the dispatched call, whether the pipeline
took its outcome as success, and the message the step returned. -/
structure TraceEntry where
  call : StepCall
  ok : Bool
  message : String
deriving DecidableEq, Repr

/-- Effect oracles of one pipeline run. -/
structure Env where
  rng : Nat → Nat := fun _ => 0
  hash : String → String := fun s => s
  languages : List String := []
  sqlFail : Option String := none
  custom : CustomDbOracle := {}
  adminFail : Option String := none
  companyFail : Option String := none
  langFail : Option String := none
  modFail : Option String := none

/-- Admin form data consumed by the pipeline. -/
structure AdminForm where
  email : String := ""
deriving DecidableEq, Repr

/-- Company form data consumed by the pipeline. -/
structure CompanyForm where
  company_name : String := ""
  industry : String := ""
deriving DecidableEq, Repr

/-- System form data consumed by the pipeline. -/
structure SystemForm where
  modules : List String := []
deriving DecidableEq, Repr

/-- Session dict handed to provision_site, with the keys and defaults the
source reads from it. -/
structure Session where
  db_type : String := "standard"
  db_form : DbForm := {}
  admin_form : AdminForm := {}
  company_form : CompanyForm := {}
  system_form : SystemForm := {}
  admin_password : String := ""
deriving Repr

/-- Result of a pipeline run: every yielded message in order, the trace of
step calls whose outcome the pipeline observed, the final external state,
and — when a step raised an exception the pipeline does not catch — the
text of that exception (`none` when the generator ran to completion). -/
structure Run where
  msgs : List String
  trace : List TraceEntry
  db : Database
  store : CredStore
  raised : Option String

/-- Step 6 of provision_site: seed modules, then either abort or finish. -/
def seedModulesStage (env : Env) (modules : List String) (db : Database)
    (store : CredStore) : Run :=
  let r := seed_modules env.modFail db modules
  let failed := pyStartsWith r.1 "❌"
  if failed then
    ⟨["📦 Enabling modules...", r.1, "❌ Aborting: Module seeding failed", "done"],
     [⟨.seedModules modules, false, r.1⟩], r.2, store, none⟩
  else
    ⟨["📦 Enabling modules...", r.1, "✅ Site provisioning complete", "done"],
     [⟨.seedModules modules, true, r.1⟩], r.2, store, none⟩

/-- Step 5 of provision_site: seed languages, aborting on a ❌ message. -/
def seedLanguagesStage (env : Env) (modules : List String) (db : Database)
    (store : CredStore) : Run :=
  let r := seed_languages env.langFail env.languages db
  if pyStartsWith r.1 "❌" then
    ⟨["🌐 Seeding languages...", r.1, "❌ Aborting: Language seeding failed", "done"],
     [⟨.seedLanguages, false, r.1⟩], r.2, store, none⟩
  else
    let rest := seedModulesStage env modules r.2 store
    ⟨["🌐 Seeding languages...", r.1] ++ rest.msgs,
     ⟨.seedLanguages, true, r.1⟩ :: rest.trace, rest.db, rest.store, none⟩

/-- Step 4 of provision_site: the company-name precondition, then the
company record insert. -/
def companyStage (env : Env) (company industry : String) (modules : List String)
    (db : Database) (store : CredStore) : Run :=
  if company = "" then
    ⟨["🏢 Creating company record...", "❌ Aborting: Company name missing", "done"],
     [], db, store, none⟩
  else
    let r := create_company_record env.companyFail db company industry
    if r.1.1 then
      let rest := seedLanguagesStage env modules r.2 store
      ⟨["🏢 Creating company record...", r.1.2] ++ rest.msgs,
       ⟨.createCompanyRecord company industry, true, r.1.2⟩ :: rest.trace,
       rest.db, rest.store, none⟩
    else
      ⟨["🏢 Creating company record...", r.1.2, "❌ Aborting: Company setup failed", "done"],
       [⟨.createCompanyRecord company industry, false, r.1.2⟩], r.2, store, none⟩

/-- Step 3 of provision_site: the admin-credentials precondition, then the
admin user insert. -/
def adminStage (env : Env) (email password company industry : String)
    (modules : List String) (db : Database) (store : CredStore) : Run :=
  if email = "" || password = "" then
    ⟨["👤 Creating system admin...", "❌ Aborting: Admin credentials missing", "done"],
     [], db, store, none⟩
  else
    let r := create_system_admin_user env.hash env.adminFail db email password
    if r.1.1 then
      let rest := companyStage env company industry modules r.2 store
      ⟨["👤 Creating system admin...", r.1.2] ++ rest.msgs,
       ⟨.createSystemAdminUser email password, true, r.1.2⟩ :: rest.trace,
       rest.db, rest.store, none⟩
    else
      ⟨["👤 Creating system admin...", r.1.2, "❌ Aborting: Admin setup failed", "done"],
       [⟨.createSystemAdminUser email password, false, r.1.2⟩], r.2, store, none⟩

/-- Embedding of `provision_site(session)`: read the session keys, strip the
string inputs, run the database step (standard or custom), and on success
hand over to the admin stage; on failure abort.  The generator itself
catches no exceptions, so when the custom database step raises (invalid
certificate file) the run stops after the two opening yields with the
exception recorded in `raised` and no "done" ever yielded.  The engine
built by get_db_admin_engine is represented by the threaded `Database`
state. -/
def provision_site (env : Env) (session : Session) (db : Database)
    (store : CredStore) : Run :=
  let password := pyStrip session.admin_password
  let db_name := pyStrip session.db_form.db_name
  let email := pyStrip session.admin_form.email
  let company := pyStrip session.company_form.company_name
  let industry := pyStrip session.company_form.industry
  let modules := session.system_form.modules
  let step : Except String
      ((Bool × List (String × CredValue) × String) × CredStore × StepCall) :=
    if session.db_type = "standard" then
      let r := create_standard_db env.rng env.sqlFail store db_name
      .ok (r.1, r.2, StepCall.createStandardDb db_name)
    else
      match create_custom_db env.custom store session.db_form with
      | .error e => .error e
      | .ok r => .ok (r.1, r.2, StepCall.createCustomDb session.db_form)
  match step with
  | .error e =>
    ⟨["🔧 Starting site provisioning...", "📦 Setting up database..."],
     [], db, store, some e⟩
  | .ok (res, store', call) =>
    let ok := res.1
    let msg := res.2.2
    if ok then
      let rest := adminStage env email password company industry modules db store'
      ⟨["🔧 Starting site provisioning...", "📦 Setting up database...", msg] ++ rest.msgs,
       ⟨call, true, msg⟩ :: rest.trace, rest.db, rest.store, none⟩
    else
      ⟨["🔧 Starting site provisioning...", "📦 Setting up database...", msg,
        "❌ Aborting: DB provisioning failed", "done"],
       [⟨call, false, msg⟩], db, store, none⟩

/-! ## Finish-stream endpoint (finish_setup_router.finish_stream) -/

/-- Server-side session of the onboarding wizard, with the keys
finish_stream reads and writes. -/
structure HttpSession where
  provisioning_started : Bool := false
  onboarding_complete : Bool := false
  db_type : String := "standard"
  dbsetup_standard_form : DbForm := {}
  dbsetup_custom_form : DbForm := {}
  admin_form : AdminForm := {}
  company_form : CompanyForm := {}
  system_form : SystemForm := {}
  admin_pw : String := ""

/-- SSE framing applied to one pipeline message by event_generator. -/
def sseEvent (msg : String) : String :=
  if msg = "done" then "event: done\ndata: done\n\n"
  else "event: log\ndata: " ++ msg ++ "\n\n"

/-- The sentinel SSE event closing every stream. -/
def doneEvent : String := "event: done\ndata: done\n\n"

/-- clear_onboarding_state on the modelled session keys: drop the collected
wizard state. -/
def clear_onboarding_state (hs : HttpSession) : HttpSession :=
  { hs with
    db_type := "standard"
    dbsetup_standard_form := {}
    dbsetup_custom_form := {}
    admin_form := {}
    company_form := {}
    system_form := {}
    admin_pw := "" }

/-- Result of one request to /finish-stream: the SSE events sent, the step
calls dispatched, the state afterwards, and the exception that killed the
stream mid-way when the pipeline raised (`none` for a completed stream). -/
structure StreamResult where
  events : List String
  trace : List TraceEntry
  httpSession : HttpSession
  db : Database
  store : CredStore
  raised : Option String

/-- Embedding of `finish_stream(request)`.  A session already flagged as
provisioning-started or onboarding-complete short-circuits to the single
done event; otherwise the provisioning flag is set, the session data is
assembled (popping the admin password), the pipeline messages are framed
as SSE events, and the cleanup background task clears the wizard state
once the done marker was observed in the stream (when the pipeline raised,
no done event was sent, so cleanup is skipped and the raise propagates). -/
def finish_stream (env : Env) (hs : HttpSession) (db : Database)
    (store : CredStore) : StreamResult :=
  if hs.provisioning_started || hs.onboarding_complete then
    ⟨[doneEvent], [], hs, db, store, none⟩
  else
    let session : Session :=
      { db_type := hs.db_type,
        db_form := if hs.db_type = "standard" then hs.dbsetup_standard_form
                   else hs.dbsetup_custom_form,
        admin_form := hs.admin_form,
        company_form := hs.company_form,
        system_form := hs.system_form,
        admin_password := hs.admin_pw }
    let hs1 := { hs with provisioning_started := true, admin_pw := "" }
    let r := provision_site env session db store
    let doneSeen := r.msgs.contains "done"
    let hs2 :=
      if doneSeen then
        { clear_onboarding_state hs1 with
          onboarding_complete := true
          provisioning_started := false }
      else hs1
    ⟨r.msgs.map sseEvent, r.trace, hs2, r.db, r.store, r.raised⟩

/-! ## Message toolkit

Every progress message starts with a marker character, so no step or abort
message can collide with the sentinel "done"; these lemmas make that
usable. -/

theorem head?_append (s t : String) (c : Char) (h : s.data.head? = some c) :
    (s ++ t).data.head? = some c := by
  have hd : (s ++ t).data = s.data ++ t.data := by simp [String.data_append]
  rw [hd]
  cases hs : s.data with
  | nil => rw [hs] at h; simp at h
  | cons a l => rw [hs] at h; simp at h; simp [h]

theorem ne_of_head? (s t : String) (h : s.data.head? ≠ t.data.head?) : s ≠ t := by
  intro he
  exact h (by rw [he])

theorem ne_done_of_head? (s : String) (c : Char) (h : s.data.head? = some c)
    (hc : c ≠ 'd') : s ≠ "done" := by
  apply ne_of_head?
  rw [h]
  have : ("done" : String).data.head? = some 'd' := rfl
  rw [this]
  simp [hc]

theorem seed_languages_msg_head (fail : Option String) (langs : List String)
    (db : Database) :
    (seed_languages fail langs db).1.data.head? = some '❌' ∨
      (seed_languages fail langs db).1 = "✔️ Languages seeded" := by
  cases fail with
  | none => exact .inr rfl
  | some e => exact .inl (head?_append _ _ _ rfl)

theorem seed_modules_msg_head (fail : Option String) (db : Database)
    (modules : List String) :
    (seed_modules fail db modules).1.data.head? = some '❌' ∨
      (seed_modules fail db modules).1 = "✔️ Modules seeded" := by
  cases fail with
  | none => exact .inr rfl
  | some e => exact .inl (head?_append _ _ _ rfl)

theorem seed_languages_msg_ne_done (fail : Option String) (langs : List String)
    (db : Database) : (seed_languages fail langs db).1 ≠ "done" := by
  rcases seed_languages_msg_head fail langs db with h | h
  · exact ne_done_of_head? _ _ h (by decide)
  · rw [h]; decide

theorem seed_modules_msg_ne_done (fail : Option String) (db : Database)
    (modules : List String) : (seed_modules fail db modules).1 ≠ "done" := by
  rcases seed_modules_msg_head fail db modules with h | h
  · exact ne_done_of_head? _ _ h (by decide)
  · rw [h]; decide

theorem create_system_admin_user_msg_head (hash : String → String)
    (fail : Option String) (db : Database) (email password : String) :
    (create_system_admin_user hash fail db email password).1.2.data.head? = some '❌' ∨
      (create_system_admin_user hash fail db email password).1.2 =
        "✅ System admin user created" := by
  unfold create_system_admin_user
  cases fail with
  | some e => exact .inl (head?_append _ _ _ rfl)
  | none =>
    by_cases h : (db.users.getD []).any (fun u => u.username = email)
    · simp only [h, if_true]
      exact .inl (head?_append _ _ _ (head?_append _ _ _ rfl))
    · simp only [h]
      exact .inr rfl

theorem create_system_admin_user_msg_ne_done (hash : String → String)
    (fail : Option String) (db : Database) (email password : String) :
    (create_system_admin_user hash fail db email password).1.2 ≠ "done" := by
  rcases create_system_admin_user_msg_head hash fail db email password with h | h
  · exact ne_done_of_head? _ _ h (by decide)
  · rw [h]; decide

theorem create_company_record_msg_head (fail : Option String) (db : Database)
    (name industry : String) :
    (create_company_record fail db name industry).1.2.data.head? = some '❌' ∨
      (create_company_record fail db name industry).1.2 = "✅ Company record created" := by
  cases fail with
  | some e => exact .inl (head?_append _ _ _ rfl)
  | none => exact .inr rfl

theorem create_company_record_msg_ne_done (fail : Option String) (db : Database)
    (name industry : String) :
    (create_company_record fail db name industry).1.2 ≠ "done" := by
  rcases create_company_record_msg_head fail db name industry with h | h
  · exact ne_done_of_head? _ _ h (by decide)
  · rw [h]; decide

theorem create_standard_db_msg_head (rng : Nat → Nat) (sqlFail : Option String)
    (store : CredStore) (db_name : String) :
    (create_standard_db rng sqlFail store db_name).1.2.2.data.head? = some '❌' ∨
      (create_standard_db rng sqlFail store db_name).1.2.2.data.head? = some '✅' := by
  unfold create_standard_db
  cases sqlFail with
  | some e => exact .inl (head?_append _ _ _ rfl)
  | none =>
    cases hw : write_db_creds db_name
        [("db_name", .str db_name), ("user", .str (db_name ++ "_admin")),
         ("password", .str (generate_password rng 20)), ("host", .str POSTGRES_HOST),
         ("port", .int POSTGRES_PORT), ("ssl", .bool false)] none {} store with
    | error err =>
      simp only [hw]
      exact .inl (head?_append _ _ _ rfl)
    | ok store' =>
      simp only [hw]
      exact .inr (head?_append _ _ _ (head?_append _ _ _ (head?_append _ _ _
        (head?_append _ _ _ rfl))))

theorem custom_db_try_msg_head (oracle : CustomDbOracle) (store : CredStore)
    (form : DbForm) :
    (custom_db_try oracle store form).1.2.2.data.head? = some '❌' ∨
      (custom_db_try oracle store form).1.2.2.data.head? = some '✅' := by
  unfold custom_db_try
  cases oracle.connectFail with
  | some e => exact .inl (head?_append _ _ _ rfl)
  | none =>
    simp only
    split
    · exact .inl (head?_append _ _ _ rfl)
    · exact .inr (head?_append _ _ _ (head?_append _ _ _ rfl))

theorem create_custom_db_ok_msg_head (oracle : CustomDbOracle) (store : CredStore)
    (form : DbForm) (r : (Bool × List (String × CredValue) × String) × CredStore)
    (h : create_custom_db oracle store form = .ok r) :
    r.1.2.2.data.head? = some '❌' ∨ r.1.2.2.data.head? = some '✅' := by
  unfold create_custom_db at h
  split at h
  · injection h with h
    subst h
    exact .inl rfl
  · split at h
    · cases hsf : oracle.sslContextFail with
      | some e =>
        rw [hsf] at h
        exact Except.noConfusion h
      | none =>
        rw [hsf] at h
        injection h with h
        subst h
        exact custom_db_try_msg_head oracle store form
    · injection h with h
      subst h
      exact custom_db_try_msg_head oracle store form

theorem create_standard_db_msg_ne_done (rng : Nat → Nat) (sqlFail : Option String)
    (store : CredStore) (db_name : String) :
    (create_standard_db rng sqlFail store db_name).1.2.2 ≠ "done" := by
  rcases create_standard_db_msg_head rng sqlFail store db_name with h | h <;>
    exact ne_done_of_head? _ _ h (by decide)

theorem create_custom_db_ok_msg_ne_done (oracle : CustomDbOracle)
    (store : CredStore) (form : DbForm)
    (r : (Bool × List (String × CredValue) × String) × CredStore)
    (h : create_custom_db oracle store form = .ok r) : r.1.2.2 ≠ "done" := by
  rcases create_custom_db_ok_msg_head oracle store form r h with hh | hh <;>
    exact ne_done_of_head? _ _ hh (by decide)

/-! ## The end-of-stream contract, stage by stage -/

/-- The message list ends with exactly one "done" and nothing follows it. -/
def EndsDone (l : List String) : Prop :=
  ∃ pre, l = pre ++ ["done"] ∧ "done" ∉ pre

theorem endsDone_cons (x : String) (l : List String) (hx : x ≠ "done")
    (hl : EndsDone l) : EndsDone (x :: l) := by
  rcases hl with ⟨pre, hpre, hmem⟩
  exact ⟨x :: pre, by rw [hpre]; rfl, by
    intro h
    rcases List.mem_cons.mp h with h | h
    · exact hx h.symm
    · exact hmem h⟩

theorem endsDone_of_three (a b c : String) (ha : a ≠ "done") (hb : b ≠ "done")
    (hc : c ≠ "done") : EndsDone [a, b, c, "done"] := by
  refine ⟨[a, b, c], rfl, ?_⟩
  intro h
  rcases List.mem_cons.mp h with h | h
  · exact ha h.symm
  rcases List.mem_cons.mp h with h | h
  · exact hb h.symm
  rcases List.mem_cons.mp h with h | h
  · exact hc h.symm
  · simp at h

theorem endsDone_of_two (a b : String) (ha : a ≠ "done") (hb : b ≠ "done") :
    EndsDone [a, b, "done"] := by
  refine ⟨[a, b], rfl, ?_⟩
  intro h
  rcases List.mem_cons.mp h with h | h
  · exact ha h.symm
  rcases List.mem_cons.mp h with h | h
  · exact hb h.symm
  · simp at h

theorem seedModulesStage_endsDone (env : Env) (modules : List String)
    (db : Database) (store : CredStore) :
    EndsDone (seedModulesStage env modules db store).msgs := by
  have hne := seed_modules_msg_ne_done env.modFail db modules
  unfold seedModulesStage
  dsimp only
  split <;>
    exact endsDone_of_three _ _ _ (by decide) hne (by decide)

theorem seedLanguagesStage_endsDone (env : Env) (modules : List String)
    (db : Database) (store : CredStore) :
    EndsDone (seedLanguagesStage env modules db store).msgs := by
  have hne := seed_languages_msg_ne_done env.langFail env.languages db
  unfold seedLanguagesStage
  dsimp only
  split
  · exact endsDone_of_three _ _ _ (by decide) hne (by decide)
  · show EndsDone (["🌐 Seeding languages...", _] ++ _)
    rw [List.cons_append, List.cons_append, List.nil_append]
    exact endsDone_cons _ _ (by decide) (endsDone_cons _ _ hne
      (seedModulesStage_endsDone env modules _ store))

theorem companyStage_endsDone (env : Env) (company industry : String)
    (modules : List String) (db : Database) (store : CredStore) :
    EndsDone (companyStage env company industry modules db store).msgs := by
  have hne := create_company_record_msg_ne_done env.companyFail db company industry
  unfold companyStage
  dsimp only
  split
  · exact endsDone_of_two _ _ (by decide) (by decide)
  · split
    · show EndsDone (["🏢 Creating company record...", _] ++ _)
      rw [List.cons_append, List.cons_append, List.nil_append]
      exact endsDone_cons _ _ (by decide) (endsDone_cons _ _ hne
        (seedLanguagesStage_endsDone env modules _ store))
    · exact endsDone_of_three _ _ _ (by decide) hne (by decide)

theorem adminStage_endsDone (env : Env) (email password company industry : String)
    (modules : List String) (db : Database) (store : CredStore) :
    EndsDone (adminStage env email password company industry modules db store).msgs := by
  have hne := create_system_admin_user_msg_ne_done env.hash env.adminFail db email password
  unfold adminStage
  dsimp only
  split
  · exact endsDone_of_two _ _ (by decide) (by decide)
  · split
    · show EndsDone (["👤 Creating system admin...", _] ++ _)
      rw [List.cons_append, List.cons_append, List.nil_append]
      exact endsDone_cons _ _ (by decide) (endsDone_cons _ _ hne
        (companyStage_endsDone env company industry modules _ store))
    · exact endsDone_of_three _ _ _ (by decide) hne (by decide)

/-- Every run in which no step raised an uncaught exception ends its
message sequence with exactly one "done" and yields nothing after it.
The qualification is necessary: the custom database step can raise
(invalid certificate file), and then no "done" is ever yielded. -/
theorem provision_site_ends_done_unless_raised (env : Env) (session : Session)
    (db : Database) (store : CredStore)
    (h : (provision_site env session db store).raised = none) :
    ∃ pre, (provision_site env session db store).msgs = pre ++ ["done"] ∧
      "done" ∉ pre := by
  show EndsDone (provision_site env session db store).msgs
  revert h
  unfold provision_site
  by_cases hty : session.db_type = "standard" <;> simp only [hty, if_true, if_false,
    reduceIte]
  · intro _
    have hne := create_standard_db_msg_ne_done env.rng env.sqlFail store
      (pyStrip session.db_form.db_name)
    split
    · show EndsDone (["🔧 Starting site provisioning...", "📦 Setting up database...", _] ++ _)
      rw [List.cons_append, List.cons_append, List.cons_append, List.nil_append]
      exact endsDone_cons _ _ (by decide) (endsDone_cons _ _ (by decide)
        (endsDone_cons _ _ hne (adminStage_endsDone env _ _ _ _ _ db _)))
    · exact ⟨["🔧 Starting site provisioning...", "📦 Setting up database...", _,
        "❌ Aborting: DB provisioning failed"], rfl, by
        intro h
        rcases List.mem_cons.mp h with h | h
        · exact absurd h.symm (by decide)
        rcases List.mem_cons.mp h with h | h
        · exact absurd h.symm (by decide)
        rcases List.mem_cons.mp h with h | h
        · exact hne h.symm
        rcases List.mem_cons.mp h with h | h
        · exact absurd h.symm (by decide)
        · simp at h⟩
  · rcases hcc : create_custom_db env.custom store session.db_form with e | r <;>
      simp only [hcc]
    · intro h
      exact absurd h (by simp)
    · intro _
      have hne := create_custom_db_ok_msg_ne_done env.custom store session.db_form r hcc
      split
      · show EndsDone (["🔧 Starting site provisioning...", "📦 Setting up database...", _] ++ _)
        rw [List.cons_append, List.cons_append, List.cons_append, List.nil_append]
        exact endsDone_cons _ _ (by decide) (endsDone_cons _ _ (by decide)
          (endsDone_cons _ _ hne (adminStage_endsDone env _ _ _ _ _ db _)))
      · exact ⟨["🔧 Starting site provisioning...", "📦 Setting up database...", _,
          "❌ Aborting: DB provisioning failed"], rfl, by
          intro h
          rcases List.mem_cons.mp h with h | h
          · exact absurd h.symm (by decide)
          rcases List.mem_cons.mp h with h | h
          · exact absurd h.symm (by decide)
          rcases List.mem_cons.mp h with h | h
          · exact hne h.symm
          rcases List.mem_cons.mp h with h | h
          · exact absurd h.symm (by decide)
          · simp at h⟩

/-- Custom-mode session whose SSL certificate was uploaded with a valid
.pem extension but invalid contents: the upload route checks only the
extension, so the path exists on disk yet
ssl.create_default_context raises on it. -/
def sslCustomSession : Session :=
  { db_type := "custom"
    db_form := { db_name := "acme_co", user := "dbuser", password := "dbpass",
                 host := "db.example.com", port := 5432, ssl := true,
                 ssl_cert_path := some "/app/uploads/cert.pem" }
    admin_form := { email := "admin@acme.co" }
    company_form := { company_name := "Acme", industry := "Tech" }
    system_form := { modules := ["CRM"] }
    admin_password := "secure123" }

/-- Oracle for that run: the certificate path exists, but building the SSL
context from its contents raises SSLError. -/
def invalidPemEnv : Env :=
  { custom := { sslContextFail := some "[SSL] PEM lib (_ssl.c:3914)" } }

/-- C1 (code bug): the claim that every run's message sequence ends with
exactly one "done" is the intent of the spec and of the generator's own
docstring, but the code violates it — ssl.create_default_context sits
before the try block of create_custom_db, so with an existing but invalid
certificate file the SSLError propagates uncaught through provision_site
and the run dies after the two opening messages with no "done" yielded. -/
theorem provision_site_uncaught_ssl_error :
    (provision_site invalidPemEnv sslCustomSession {} []).msgs =
      ["🔧 Starting site provisioning...", "📦 Setting up database..."] ∧
    (provision_site invalidPemEnv sslCustomSession {} []).raised =
      some "[SSL] PEM lib (_ssl.c:3914)" ∧
    "done" ∉ (provision_site invalidPemEnv sslCustomSession {} []).msgs := by
  refine ⟨rfl, rfl, ?_⟩
  decide

/-! ## Abort-on-failure contract -/

/-- Abort message the pipeline yields when the step at a given position
fails. -/
def abortMsg : Nat → String
  | 0 => "❌ Aborting: DB provisioning failed"
  | 1 => "❌ Aborting: Admin setup failed"
  | 2 => "❌ Aborting: Company setup failed"
  | 3 => "❌ Aborting: Language seeding failed"
  | _ => "❌ Aborting: Module seeding failed"

theorem pyStartsWith_cross_of_head (s : String) (h : s.data.head? = some '❌') :
    pyStartsWith s "❌" = true := by
  cases hs : s.data with
  | nil => rw [hs] at h; simp at h
  | cons c l =>
    rw [hs] at h
    simp only [List.head?_cons, Option.some.injEq] at h
    subst h
    show List.isPrefixOf "❌".data (s.data) = true
    rw [hs]
    have hx : ("❌" : String).data = ['❌'] := rfl
    rw [hx]
    simp [List.isPrefixOf]

theorem ne_empty_of_startsWith_cross (s : String) (h : pyStartsWith s "❌" = true) :
    s ≠ "" := by
  intro he
  subst he
  simp [pyStartsWith, List.isPrefixOf] at h

theorem create_standard_db_fail_cross (rng : Nat → Nat) (sqlFail : Option String)
    (store : CredStore) (db_name : String) :
    (create_standard_db rng sqlFail store db_name).1.1 = false →
    pyStartsWith (create_standard_db rng sqlFail store db_name).1.2.2 "❌" = true := by
  unfold create_standard_db
  dsimp only
  split
  · intro _
    exact pyStartsWith_cross_of_head _ (head?_append _ _ _ rfl)
  · split
    · intro _
      exact pyStartsWith_cross_of_head _ (head?_append _ _ _ rfl)
    · intro h
      simp at h

theorem custom_db_try_fail_cross (oracle : CustomDbOracle) (store : CredStore)
    (form : DbForm) :
    (custom_db_try oracle store form).1.1 = false →
    pyStartsWith (custom_db_try oracle store form).1.2.2 "❌" = true := by
  unfold custom_db_try
  split
  · intro _
    exact pyStartsWith_cross_of_head _ (head?_append _ _ _ rfl)
  · dsimp only
    split
    · intro _
      exact pyStartsWith_cross_of_head _ (head?_append _ _ _ rfl)
    · intro h
      simp at h

theorem create_custom_db_ok_fail_cross (oracle : CustomDbOracle)
    (store : CredStore) (form : DbForm)
    (r : (Bool × List (String × CredValue) × String) × CredStore)
    (h : create_custom_db oracle store form = .ok r) :
    r.1.1 = false → pyStartsWith r.1.2.2 "❌" = true := by
  unfold create_custom_db at h
  split at h
  · injection h with h
    subst h
    intro _
    exact pyStartsWith_cross_of_head _ rfl
  · split at h
    · cases hsf : oracle.sslContextFail with
      | some e =>
        rw [hsf] at h
        exact Except.noConfusion h
      | none =>
        rw [hsf] at h
        injection h with h
        subst h
        exact custom_db_try_fail_cross oracle store form
    · injection h with h
      subst h
      exact custom_db_try_fail_cross oracle store form

theorem create_system_admin_user_fail_cross (hash : String → String)
    (fail : Option String) (db : Database) (email password : String) :
    (create_system_admin_user hash fail db email password).1.1 = false →
    pyStartsWith (create_system_admin_user hash fail db email password).1.2 "❌" = true := by
  unfold create_system_admin_user
  dsimp only
  split
  · intro _
    exact pyStartsWith_cross_of_head _ (head?_append _ _ _ rfl)
  · split
    · intro _
      exact pyStartsWith_cross_of_head _ (head?_append _ _ _ (head?_append _ _ _ rfl))
    · intro h
      simp at h

theorem create_company_record_fail_cross (fail : Option String) (db : Database)
    (name industry : String) :
    (create_company_record fail db name industry).1.1 = false →
    pyStartsWith (create_company_record fail db name industry).1.2 "❌" = true := by
  unfold create_company_record
  split
  · intro _
    exact pyStartsWith_cross_of_head _ (head?_append _ _ _ rfl)
  · intro h
    simp at h

/-- Invariant of the tail of a run starting at step position `k`: every
dispatched call sits at position `k` or later, and any failed call has a
❌-marked message in the yielded output, is followed by the matching abort
message, and is the last dispatched call. -/
def GoodTail (k : Nat) (msgs : List String) (trace : List TraceEntry) : Prop :=
  (∀ t ∈ trace, k ≤ t.call.idx) ∧
  (∀ t ∈ trace, t.ok = false →
    pyStartsWith t.message "❌" = true ∧ t.message ∈ msgs ∧
    abortMsg t.call.idx ∈ msgs ∧ ∀ t' ∈ trace, t'.call.idx ≤ t.call.idx)

theorem goodTail_nil (k : Nat) (msgs : List String) : GoodTail k msgs [] :=
  ⟨fun t ht => absurd ht (List.not_mem_nil t), fun t ht => absurd ht (List.not_mem_nil t)⟩

theorem goodTail_okSingleton (k : Nat) (msgs : List String) (c : StepCall) (m : String)
    (hk : c.idx = k) : GoodTail k msgs [⟨c, true, m⟩] := by
  constructor
  · intro t ht
    rcases List.mem_singleton.mp ht with rfl
    exact hk.ge
  · intro t ht hok
    rcases List.mem_singleton.mp ht with rfl
    simp at hok

theorem goodTail_abort (k : Nat) (msgs : List String) (c : StepCall) (m : String)
    (hk : c.idx = k) (hcross : pyStartsWith m "❌" = true) (hm : m ∈ msgs)
    (habort : abortMsg k ∈ msgs) : GoodTail k msgs [⟨c, false, m⟩] := by
  constructor
  · intro t ht
    rcases List.mem_singleton.mp ht with rfl
    exact hk.ge
  · intro t ht _
    rcases List.mem_singleton.mp ht with rfl
    refine ⟨hcross, hm, ?_, ?_⟩
    · show abortMsg c.idx ∈ msgs
      rw [hk]
      exact habort
    intro t' ht'
    rcases List.mem_singleton.mp ht' with rfl
    exact le_rfl

theorem goodTail_cons (k : Nat) (c : StepCall) (m : String) (pre msgs : List String)
    (trace : List TraceEntry) (hk : c.idx = k)
    (h : GoodTail (k + 1) msgs trace) :
    GoodTail k (pre ++ msgs) (⟨c, true, m⟩ :: trace) := by
  obtain ⟨h1, h2⟩ := h
  constructor
  · intro t ht
    rcases List.mem_cons.mp ht with rfl | ht
    · exact hk.ge
    · exact le_trans (Nat.le_succ k) (h1 t ht)
  · intro t ht hok
    rcases List.mem_cons.mp ht with rfl | ht
    · simp at hok
    · obtain ⟨hc, hm, ha, hmax⟩ := h2 t ht hok
      refine ⟨hc, List.mem_append_right pre hm, List.mem_append_right pre ha, ?_⟩
      intro t' ht'
      rcases List.mem_cons.mp ht' with rfl | ht'
      · calc (⟨c, true, m⟩ : TraceEntry).call.idx = k := hk
          _ ≤ k + 1 := Nat.le_succ k
          _ ≤ t.call.idx := h1 t ht
      · exact hmax t' ht'

theorem seedModulesStage_good (env : Env) (modules : List String) (db : Database)
    (store : CredStore) :
    GoodTail 4 (seedModulesStage env modules db store).msgs
      (seedModulesStage env modules db store).trace := by
  unfold seedModulesStage
  dsimp only
  split
  · next hfail =>
    exact goodTail_abort 4 _ _ _ rfl hfail (by simp) (by simp [abortMsg])
  · exact goodTail_okSingleton 4 _ _ _ rfl

theorem seedLanguagesStage_good (env : Env) (modules : List String) (db : Database)
    (store : CredStore) :
    GoodTail 3 (seedLanguagesStage env modules db store).msgs
      (seedLanguagesStage env modules db store).trace := by
  unfold seedLanguagesStage
  dsimp only
  split
  · next hfail =>
    exact goodTail_abort 3 _ _ _ rfl hfail (by simp) (by simp [abortMsg])
  · show GoodTail 3 (["🌐 Seeding languages...", _] ++ _) _
    exact goodTail_cons 3 _ _ _ _ _ rfl (seedModulesStage_good env modules _ store)

theorem companyStage_good (env : Env) (company industry : String)
    (modules : List String) (db : Database) (store : CredStore) :
    GoodTail 2 (companyStage env company industry modules db store).msgs
      (companyStage env company industry modules db store).trace := by
  unfold companyStage
  dsimp only
  split
  · exact goodTail_nil 2 _
  · split
    · show GoodTail 2 (["🏢 Creating company record...", _] ++ _) _
      exact goodTail_cons 2 _ _ _ _ _ rfl (seedLanguagesStage_good env modules _ store)
    · next hok =>
      refine goodTail_abort 2 _ _ _ rfl ?_ (by simp) (by simp [abortMsg])
      exact create_company_record_fail_cross env.companyFail db company industry
        (Bool.not_eq_true _ ▸ hok)

theorem adminStage_good (env : Env) (email password company industry : String)
    (modules : List String) (db : Database) (store : CredStore) :
    GoodTail 1 (adminStage env email password company industry modules db store).msgs
      (adminStage env email password company industry modules db store).trace := by
  unfold adminStage
  dsimp only
  split
  · exact goodTail_nil 1 _
  · split
    · show GoodTail 1 (["👤 Creating system admin...", _] ++ _) _
      exact goodTail_cons 1 _ _ _ _ _ rfl (companyStage_good env company industry modules _ store)
    · next hok =>
      refine goodTail_abort 1 _ _ _ rfl ?_ (by simp) (by simp [abortMsg])
      exact create_system_admin_user_fail_cross env.hash env.adminFail db email password
        (Bool.not_eq_true _ ▸ hok)

theorem provision_site_good (env : Env) (session : Session) (db : Database)
    (store : CredStore) :
    GoodTail 0 (provision_site env session db store).msgs
      (provision_site env session db store).trace := by
  unfold provision_site
  by_cases hty : session.db_type = "standard" <;>
    simp only [hty, if_true, if_false, reduceIte]
  · split
    · show GoodTail 0 (["🔧 Starting site provisioning...",
        "📦 Setting up database...", _] ++ _) _
      exact goodTail_cons 0 _ _ _ _ _ rfl (adminStage_good env _ _ _ _ _ db _)
    · next hok =>
      refine goodTail_abort 0 _ _ _ rfl ?_ (by simp) (by simp [abortMsg])
      exact create_standard_db_fail_cross env.rng env.sqlFail store _
        (Bool.not_eq_true _ ▸ hok)
  · rcases hcc : create_custom_db env.custom store session.db_form with e | r <;>
      simp only [hcc]
    · exact goodTail_nil 0 _
    · split
      · show GoodTail 0 (["🔧 Starting site provisioning...",
          "📦 Setting up database...", _] ++ _) _
        exact goodTail_cons 0 _ _ _ _ _ rfl (adminStage_good env _ _ _ _ _ db _)
      · next hok =>
        refine goodTail_abort 0 _ _ _ rfl ?_ (by simp) (by simp [abortMsg])
        exact create_custom_db_ok_fail_cross env.custom store _ r hcc
          (Bool.not_eq_true _ ▸ hok)

/-- C2: in every pipeline run, a step whose outcome the pipeline records as
failed has a non-empty, ❌-marked explanation message that is yielded, the
matching abort message for its position is yielded, and no step after its
position (in the order db_setup, admin_setup, company_setup,
seed_languages, seed_modules) is attempted. -/
theorem provision_site_stops_after_failure (env : Env) (session : Session)
    (db : Database) (store : CredStore) :
    ∀ t ∈ (provision_site env session db store).trace, t.ok = false →
      t.message ≠ "" ∧ pyStartsWith t.message "❌" = true ∧
      t.message ∈ (provision_site env session db store).msgs ∧
      abortMsg t.call.idx ∈ (provision_site env session db store).msgs ∧
      ∀ t' ∈ (provision_site env session db store).trace,
        t'.call.idx ≤ t.call.idx := by
  intro t ht hok
  obtain ⟨hc, hm, ha, hmax⟩ := (provision_site_good env session db store).2 t ht hok
  exact ⟨ne_empty_of_startsWith_cross _ hc, hc, hm, ha, hmax⟩

/-- Sample wizard session with complete, valid form data (the spec's
end-to-end scenario). -/
def sampleSession : Session :=
  { db_form := { db_name := "acme_co" }
    admin_form := { email := "admin@acme.co" }
    company_form := { company_name := "Acme", industry := "Tech" }
    system_form := { modules := ["CRM"] }
    admin_password := "secure123" }

/-- C2 witness: a concrete run whose admin step fails (oracle exception)
aborts exactly as the theorem states. -/
theorem provision_site_stops_after_failure_witness :
    let env : Env := { adminFail := some "boom" }
    let t : TraceEntry := ⟨.createSystemAdminUser "admin@acme.co" "secure123", false,
      "❌ Failed to create admin: boom"⟩
    t.message ≠ "" ∧ pyStartsWith t.message "❌" = true ∧
      t.message ∈ (provision_site env sampleSession {} []).msgs ∧
      abortMsg t.call.idx ∈ (provision_site env sampleSession {} []).msgs ∧
      ∀ t' ∈ (provision_site env sampleSession {} []).trace,
        t'.call.idx ≤ t.call.idx := by
  exact provision_site_stops_after_failure _ _ {} [] _ (by decide) (by decide)

/-! ## Empty database name (standard mode) -/

/-- With a blank database name, create_standard_db always fails: if the
server accepts the statements, persisting the credentials still raises the
blank-profile AssertionError inside the same try block. -/
theorem create_standard_db_empty_name (rng : Nat → Nat) (sqlFail : Option String)
    (store : CredStore) :
    ∃ e, create_standard_db rng sqlFail store "" =
      ((false, [], "❌ DB setup failed: " ++ e), store) := by
  rcases sqlFail with _ | e
  · exact ⟨"Profile name must not be empty", rfl⟩
  · exact ⟨e, rfl⟩

/-- Session identical to the sample but with an empty database name. -/
def emptyDbSession : Session :=
  { sampleSession with db_form := { db_name := "" } }

/-- C3 counterexample: in a concrete standard-mode run with an empty
database name, create_standard_db IS invoked (the pipeline has no
precondition short-circuit for the database name), refuting the claim that
the database-creation work is not attempted. -/
theorem provision_site_empty_dbname_invokes_create :
    (provision_site {} emptyDbSession {} []).trace.map TraceEntry.call =
      [.createStandardDb ""] := by
  decide

/-- C3 amended: in standard mode with an empty (after stripping) database
name, the pipeline invokes create_standard_db, which always fails; the
message sequence is exactly start, db-begin, the ❌ DB failure message, the
abort message about database provisioning failure, and "done" — so no
admin, company or seed message appears and no later step is attempted. -/
theorem provision_site_empty_dbname (env : Env) (session : Session)
    (db : Database) (store : CredStore) (hty : session.db_type = "standard")
    (hname : pyStrip session.db_form.db_name = "") :
    ∃ e, (provision_site env session db store).msgs =
        ["🔧 Starting site provisioning...", "📦 Setting up database...",
         "❌ DB setup failed: " ++ e, "❌ Aborting: DB provisioning failed", "done"] ∧
      (provision_site env session db store).trace =
        [⟨.createStandardDb "", false, "❌ DB setup failed: " ++ e⟩] := by
  obtain ⟨e, he⟩ := create_standard_db_empty_name env.rng env.sqlFail store
  refine ⟨e, ?_⟩
  unfold provision_site
  simp only [hty, reduceIte, hname, he]
  exact ⟨rfl, rfl⟩

/-- C3 amended-claim witness at the concrete empty-name session. -/
theorem provision_site_empty_dbname_witness :
    ∃ e, (provision_site {} emptyDbSession {} []).msgs =
        ["🔧 Starting site provisioning...", "📦 Setting up database...",
         "❌ DB setup failed: " ++ e, "❌ Aborting: DB provisioning failed", "done"] ∧
      (provision_site {} emptyDbSession {} []).trace =
        [⟨.createStandardDb "", false, "❌ DB setup failed: " ++ e⟩] :=
  provision_site_empty_dbname {} emptyDbSession {} [] rfl rfl

/-! ## Missing admin credentials -/

/-- When the stripped admin email or password is blank, the admin stage
yields only the admin-begin message, the missing-credentials abort and
"done", dispatching nothing. -/
theorem adminStage_missing_creds (env : Env)
    (email password company industry : String) (modules : List String)
    (db : Database) (store : CredStore)
    (hcond : (email = "" || password = "") = true) :
    adminStage env email password company industry modules db store =
      ⟨["👤 Creating system admin...", "❌ Aborting: Admin credentials missing",
        "done"], [], db, store, none⟩ := by
  unfold adminStage
  rw [if_pos hcond]

/-- C5: when the database step succeeded but the stripped admin email or
password is empty, the run yields exactly start, db-begin, the db success
message, admin-begin, the missing-credentials abort message and "done" —
and the only dispatched call is the database step, so admin creation,
company creation and both seed operations are never attempted. -/
theorem provision_site_missing_admin_creds (env : Env) (session : Session)
    (db : Database) (store : CredStore)
    (hcred : pyStrip session.admin_form.email = "" ∨
      pyStrip session.admin_password = "")
    (hdb : ∃ t ∈ (provision_site env session db store).trace,
      t.call.idx = 0 ∧ t.ok = true) :
    (∃ m, (provision_site env session db store).msgs =
      ["🔧 Starting site provisioning...", "📦 Setting up database...", m,
       "👤 Creating system admin...", "❌ Aborting: Admin credentials missing",
       "done"]) ∧
    ∀ t ∈ (provision_site env session db store).trace, t.call.idx = 0 := by
  have hcond : (pyStrip session.admin_form.email = "" ||
      pyStrip session.admin_password = "") = true := by
    rcases hcred with h | h <;> simp [h]
  revert hdb
  unfold provision_site
  by_cases hty : session.db_type = "standard" <;>
    simp only [hty, if_true, if_false, reduceIte]
  · split
    · intro _
      rw [adminStage_missing_creds env _ _ _ _ _ db _ hcond]
      refine ⟨⟨_, rfl⟩, ?_⟩
      intro t ht
      rcases List.mem_singleton.mp ht with rfl
      rfl
    · intro hdb
      obtain ⟨t, ht, _, hok⟩ := hdb
      rcases List.mem_singleton.mp ht with rfl
      simp at hok
  · rcases hcc : create_custom_db env.custom store session.db_form with e | r <;>
      simp only [hcc]
    · intro hdb
      obtain ⟨t, ht, _, _⟩ := hdb
      exact absurd ht (List.not_mem_nil t)
    · split
      · intro _
        rw [adminStage_missing_creds env _ _ _ _ _ db _ hcond]
        refine ⟨⟨_, rfl⟩, ?_⟩
        intro t ht
        rcases List.mem_singleton.mp ht with rfl
        rfl
      · intro hdb
        obtain ⟨t, ht, _, hok⟩ := hdb
        rcases List.mem_singleton.mp ht with rfl
        simp at hok

/-- C5 witness: valid database name, empty admin email. -/
theorem provision_site_missing_admin_creds_witness :
    let session : Session := { sampleSession with admin_form := { email := "" } }
    (∃ m, (provision_site {} session {} []).msgs =
      ["🔧 Starting site provisioning...", "📦 Setting up database...", m,
       "👤 Creating system admin...", "❌ Aborting: Admin credentials missing",
       "done"]) ∧
    ∀ t ∈ (provision_site {} session {} []).trace, t.call.idx = 0 := by
  exact provision_site_missing_admin_creds {} _ {} [] (.inl (by decide))
    ⟨⟨.createStandardDb "acme_co", true,
      "✅ Created DB 'acme_co' with scoped admin 'acme_co_admin'"⟩, by decide, rfl, rfl⟩

/-! ## Finish-stream short circuit -/

/-- C4: a finish-stream request whose session already carries the
provisioning-started or onboarding-complete flag answers with exactly the
end-of-stream event and dispatches no provisioning step. -/
theorem finish_stream_short_circuits (env : Env) (hs : HttpSession)
    (db : Database) (store : CredStore)
    (h : hs.provisioning_started = true ∨ hs.onboarding_complete = true) :
    (finish_stream env hs db store).events = [doneEvent] ∧
    (finish_stream env hs db store).trace = [] := by
  have hcond : (hs.provisioning_started || hs.onboarding_complete) = true := by
    rcases h with h | h <;> simp [h]
  unfold finish_stream
  rw [if_pos hcond]
  exact ⟨rfl, rfl⟩

/-- C4 witness: a session with the provisioning-started flag set. -/
theorem finish_stream_short_circuits_witness :
    (finish_stream {} { provisioning_started := true } {} []).events = [doneEvent] ∧
    (finish_stream {} { provisioning_started := true } {} []).trace = [] :=
  finish_stream_short_circuits {} { provisioning_started := true } {} [] (.inl rfl)

/-! ## Seed steps signal failure only through their message text -/

/-- Contract over a run tail: a seed_languages entry is recorded as failed
exactly when its message is ❌-marked; a ❌ language message yields the
language abort and stops the run before seed_modules; a clean language
message leads to a dispatched seed_modules call.  A seed_modules entry is
likewise recorded via its message marker, with a ❌ message yielding the
module abort and a clean one the final success message. -/
def SeedContract (msgs : List String) (trace : List TraceEntry) : Prop :=
  (∀ t ∈ trace, t.call = .seedLanguages →
    t.ok = !(pyStartsWith t.message "❌") ∧
    (pyStartsWith t.message "❌" = true →
      abortMsg 3 ∈ msgs ∧ ∀ t' ∈ trace, ∀ mods, t'.call ≠ .seedModules mods) ∧
    (pyStartsWith t.message "❌" = false →
      ∃ t' ∈ trace, ∃ mods, t'.call = .seedModules mods)) ∧
  (∀ t ∈ trace, ∀ mods, t.call = .seedModules mods →
    t.ok = !(pyStartsWith t.message "❌") ∧
    (pyStartsWith t.message "❌" = true → abortMsg 4 ∈ msgs) ∧
    (pyStartsWith t.message "❌" = false → "✅ Site provisioning complete" ∈ msgs))

theorem seedContract_nil (msgs : List String) : SeedContract msgs [] :=
  ⟨fun t ht => absurd ht (List.not_mem_nil t),
   fun t ht => absurd ht (List.not_mem_nil t)⟩

/-- A tail whose entries are all non-seed calls satisfies the contract
vacuously. -/
theorem seedContract_singleton_other (msgs : List String) (e : TraceEntry)
    (h1 : e.call ≠ .seedLanguages) (h2 : ∀ mods, e.call ≠ .seedModules mods) :
    SeedContract msgs [e] := by
  constructor
  · intro t ht hc
    rcases List.mem_singleton.mp ht with rfl
    exact absurd hc h1
  · intro t ht mods hc
    rcases List.mem_singleton.mp ht with rfl
    exact absurd hc (h2 mods)

/-- Prepending a non-seed entry and more messages preserves the contract. -/
theorem seedContract_cons (e : TraceEntry) (pre msgs : List String)
    (trace : List TraceEntry) (h1 : e.call ≠ .seedLanguages)
    (h2 : ∀ mods, e.call ≠ .seedModules mods)
    (h : SeedContract msgs trace) : SeedContract (pre ++ msgs) (e :: trace) := by
  obtain ⟨hl, hm⟩ := h
  constructor
  · intro t ht hc
    rcases List.mem_cons.mp ht with rfl | ht
    · exact absurd hc h1
    · obtain ⟨hok, hfail, hcont⟩ := hl t ht hc
      refine ⟨hok, ?_, ?_⟩
      · intro hcross
        obtain ⟨ha, hnone⟩ := hfail hcross
        refine ⟨List.mem_append_right pre ha, ?_⟩
        intro t' ht' mods
        rcases List.mem_cons.mp ht' with rfl | ht'
        · exact h2 mods
        · exact hnone t' ht' mods
      · intro hcross
        obtain ⟨t', ht', hmods⟩ := hcont hcross
        exact ⟨t', List.mem_cons_of_mem e ht', hmods⟩
  · intro t ht mods hc
    rcases List.mem_cons.mp ht with rfl | ht
    · exact absurd hc (h2 mods)
    · obtain ⟨hok, hfail, hdone⟩ := hm t ht mods hc
      exact ⟨hok, fun hcross => List.mem_append_right pre (hfail hcross),
        fun hcross => List.mem_append_right pre (hdone hcross)⟩

theorem seedModulesStage_seedContract (env : Env) (modules : List String)
    (db : Database) (store : CredStore) :
    SeedContract (seedModulesStage env modules db store).msgs
      (seedModulesStage env modules db store).trace := by
  unfold seedModulesStage
  dsimp only
  split
  · next hfail =>
    constructor
    · intro t ht hc
      rcases List.mem_singleton.mp ht with rfl
      simp at hc
    · intro t ht mods hc
      rcases List.mem_singleton.mp ht with rfl
      refine ⟨by simp [hfail], fun _ => by simp [abortMsg], fun hcross => ?_⟩
      rw [show (⟨StepCall.seedModules modules, false,
        (seed_modules env.modFail db modules).1⟩ : TraceEntry).message =
        (seed_modules env.modFail db modules).1 from rfl] at hcross
      rw [hfail] at hcross
      exact absurd hcross (by simp)
  · next hfail =>
    rw [Bool.not_eq_true] at hfail
    constructor
    · intro t ht hc
      rcases List.mem_singleton.mp ht with rfl
      simp at hc
    · intro t ht mods hc
      rcases List.mem_singleton.mp ht with rfl
      refine ⟨by simp [hfail], fun hcross => ?_, fun _ => by simp⟩
      rw [show (⟨StepCall.seedModules modules, true,
        (seed_modules env.modFail db modules).1⟩ : TraceEntry).message =
        (seed_modules env.modFail db modules).1 from rfl] at hcross
      rw [hfail] at hcross
      exact absurd hcross (by simp)

theorem seedLanguagesStage_seedContract (env : Env) (modules : List String)
    (db : Database) (store : CredStore) :
    SeedContract (seedLanguagesStage env modules db store).msgs
      (seedLanguagesStage env modules db store).trace := by
  unfold seedLanguagesStage
  dsimp only
  split
  · next hfail =>
    constructor
    · intro t ht hc
      rcases List.mem_singleton.mp ht with rfl
      refine ⟨by simp [hfail], fun _ => ⟨by simp [abortMsg], ?_⟩, fun hcross => ?_⟩
      · intro t' ht' mods
        rcases List.mem_singleton.mp ht' with rfl
        simp
      · rw [show (⟨StepCall.seedLanguages, false,
          (seed_languages env.langFail env.languages db).1⟩ : TraceEntry).message =
          (seed_languages env.langFail env.languages db).1 from rfl] at hcross
        rw [hfail] at hcross
        exact absurd hcross (by simp)
    · intro t ht mods hc
      rcases List.mem_singleton.mp ht with rfl
      simp at hc
  · next hfail =>
    rw [Bool.not_eq_true] at hfail
    obtain ⟨hl, hm⟩ := seedModulesStage_seedContract env modules
      (seed_languages env.langFail env.languages db).2 store
    constructor
    · intro t ht hc
      rcases List.mem_cons.mp ht with rfl | ht
      · refine ⟨by simp [hfail], fun hcross => ?_, fun _ => ?_⟩
        · rw [show (⟨StepCall.seedLanguages, true,
            (seed_languages env.langFail env.languages db).1⟩ : TraceEntry).message =
            (seed_languages env.langFail env.languages db).1 from rfl] at hcross
          rw [hfail] at hcross
          exact absurd hcross (by simp)
        · obtain ⟨ok₂, m₂, hmt⟩ : ∃ ok₂ m₂,
              (seedModulesStage env modules
                (seed_languages env.langFail env.languages db).2 store).trace =
              [⟨.seedModules modules, ok₂, m₂⟩] := by
            unfold seedModulesStage
            dsimp only
            split
            · exact ⟨false, _, rfl⟩
            · exact ⟨true, _, rfl⟩
          refine ⟨⟨.seedModules modules, ok₂, m₂⟩, ?_, modules, rfl⟩
          exact List.mem_cons_of_mem _ (by rw [hmt]; exact List.mem_singleton.mpr rfl)
      · obtain ⟨hok, hfail2, hcont⟩ := hl t ht hc
        refine ⟨hok, ?_, ?_⟩
        · intro hcross
          obtain ⟨ha, _⟩ := hfail2 hcross
          refine ⟨List.mem_cons_of_mem _ (List.mem_cons_of_mem _ ha), ?_⟩
          intro t' ht' mods
          exfalso
          rcases hfail2 hcross with ⟨_, hnone⟩
          obtain ⟨ok₂, m₂, hmt⟩ : ∃ ok₂ m₂,
              (seedModulesStage env modules
                (seed_languages env.langFail env.languages db).2 store).trace =
              [⟨.seedModules modules, ok₂, m₂⟩] := by
            unfold seedModulesStage
            dsimp only
            split
            · exact ⟨false, _, rfl⟩
            · exact ⟨true, _, rfl⟩
          exact hnone ⟨.seedModules modules, ok₂, m₂⟩
            (by rw [hmt]; exact List.mem_singleton.mpr rfl) modules rfl
        · intro hcross
          obtain ⟨t', ht', hmods⟩ := hcont hcross
          exact ⟨t', List.mem_cons_of_mem _ ht', hmods⟩
    · intro t ht mods hc
      rcases List.mem_cons.mp ht with rfl | ht
      · simp at hc
      · obtain ⟨hok, hfail2, hdone⟩ := hm t ht mods hc
        exact ⟨hok,
          fun hcross => List.mem_cons_of_mem _ (List.mem_cons_of_mem _ (hfail2 hcross)),
          fun hcross => List.mem_cons_of_mem _ (List.mem_cons_of_mem _ (hdone hcross))⟩

theorem companyStage_seedContract (env : Env) (company industry : String)
    (modules : List String) (db : Database) (store : CredStore) :
    SeedContract (companyStage env company industry modules db store).msgs
      (companyStage env company industry modules db store).trace := by
  unfold companyStage
  dsimp only
  split
  · exact seedContract_nil _
  · split
    · show SeedContract (["🏢 Creating company record...", _] ++ _) _
      exact seedContract_cons _ _ _ _ (by simp) (by simp)
        (seedLanguagesStage_seedContract env modules _ store)
    · exact seedContract_singleton_other _ _ (by simp) (by simp)

theorem adminStage_seedContract (env : Env)
    (email password company industry : String) (modules : List String)
    (db : Database) (store : CredStore) :
    SeedContract (adminStage env email password company industry modules db store).msgs
      (adminStage env email password company industry modules db store).trace := by
  unfold adminStage
  dsimp only
  split
  · exact seedContract_nil _
  · split
    · show SeedContract (["👤 Creating system admin...", _] ++ _) _
      exact seedContract_cons _ _ _ _ (by simp) (by simp)
        (companyStage_seedContract env company industry modules _ store)
    · exact seedContract_singleton_other _ _ (by simp) (by simp)

theorem provision_site_seedContract (env : Env) (session : Session)
    (db : Database) (store : CredStore) :
    SeedContract (provision_site env session db store).msgs
      (provision_site env session db store).trace := by
  unfold provision_site
  by_cases hty : session.db_type = "standard" <;>
    simp only [hty, if_true, if_false, reduceIte]
  · split
    · show SeedContract (["🔧 Starting site provisioning...",
        "📦 Setting up database...", _] ++ _) _
      exact seedContract_cons _ _ _ _ (by simp) (by simp)
        (adminStage_seedContract env _ _ _ _ _ db _)
    · exact seedContract_singleton_other _ _ (by simp) (by simp)
  · rcases hcc : create_custom_db env.custom store session.db_form with e | r <;>
      simp only [hcc]
    · exact seedContract_nil _
    · split
      · show SeedContract (["🔧 Starting site provisioning...",
          "📦 Setting up database...", _] ++ _) _
        exact seedContract_cons _ _ _ _ (by simp) (by simp)
          (adminStage_seedContract env _ _ _ _ _ db _)
      · exact seedContract_singleton_other _ _ (by simp) (by simp)

/-- C10: the seed steps signal failure only through their returned message
text.  seed_languages and seed_modules return a ❌-marked message exactly
when their database work raised an exception (and the fixed ✔️ success
message otherwise); and in every pipeline run, a seed step's recorded
outcome is the startswith("❌") test of its message: a ❌ language message
yields the language abort and stops the run before seed_modules, a clean
one leads to a dispatched seed_modules call, a ❌ module message yields the
module abort, and a clean one the final success message. -/
theorem seed_steps_signal_failure_via_message :
    (∀ e langs dbx, pyStartsWith (seed_languages (some e) langs dbx).1 "❌" = true) ∧
    (∀ langs dbx, (seed_languages none langs dbx).1 = "✔️ Languages seeded" ∧
      pyStartsWith (seed_languages none langs dbx).1 "❌" = false) ∧
    (∀ e dbx mods, pyStartsWith (seed_modules (some e) dbx mods).1 "❌" = true) ∧
    (∀ dbx mods, (seed_modules none dbx mods).1 = "✔️ Modules seeded" ∧
      pyStartsWith (seed_modules none dbx mods).1 "❌" = false) ∧
    ∀ env session dbx store,
      SeedContract (provision_site env session dbx store).msgs
        (provision_site env session dbx store).trace := by
  refine ⟨?_, ?_, ?_, ?_, provision_site_seedContract⟩
  · intro e langs dbx
    exact pyStartsWith_cross_of_head _ (head?_append _ _ _ rfl)
  · intro langs dbx
    refine ⟨rfl, ?_⟩
    show pyStartsWith "✔️ Languages seeded" "❌" = false
    decide
  · intro e dbx mods
    exact pyStartsWith_cross_of_head _ (head?_append _ _ _ rfl)
  · intro dbx mods
    refine ⟨rfl, ?_⟩
    show pyStartsWith "✔️ Modules seeded" "❌" = false
    decide

/-- C10 witness: a concrete run whose language seeding raises shows the
contract at work — the ❌ message, the recorded failure, the abort message,
and no module step. -/
theorem seed_steps_signal_failure_via_message_witness :
    let env : Env := { langFail := some "disk full" }
    let t : TraceEntry := ⟨.seedLanguages, false,
      "❌ Failed to seed languages: disk full"⟩
    t.ok = !(pyStartsWith t.message "❌") ∧
      (pyStartsWith t.message "❌" = true →
        abortMsg 3 ∈ (provision_site env sampleSession {} []).msgs ∧
        ∀ t' ∈ (provision_site env sampleSession {} []).trace,
          ∀ mods, t'.call ≠ .seedModules mods) ∧
      (pyStartsWith t.message "❌" = false →
        ∃ t' ∈ (provision_site env sampleSession {} []).trace,
          ∃ mods, t'.call = .seedModules mods) := by
  exact (seed_steps_signal_failure_via_message.2.2.2.2
    { langFail := some "disk full" } sampleSession {} []).1 _ (by decide) rfl

/-! ## Idempotence of the seed operations -/

/-- Row count of an optional table (absent tables count as empty). -/
def tableRowCount {α : Type} (t : Option (List α)) : Nat := (t.getD []).length

theorem insertLanguageRow_present (tbl : List (String × String)) (code label : String) :
    (insertLanguageRow tbl code label).any (fun r => r.1 = code) = true := by
  unfold insertLanguageRow
  split
  · next h => exact h
  · simp [List.any_append]

theorem insertLanguageRow_mono (tbl : List (String × String)) (code label c : String)
    (h : tbl.any (fun r => r.1 = c) = true) :
    (insertLanguageRow tbl code label).any (fun r => r.1 = c) = true := by
  unfold insertLanguageRow
  split
  · exact h
  · simp [List.any_append, h]

/-- Seeding folds insertLanguageRow over the language list. -/
def seedLangFold (langs : List String) (tbl : List (String × String)) :
    List (String × String) :=
  langs.foldl (fun acc code => insertLanguageRow acc code (pyUpper code)) tbl

theorem seedLangFold_mono (langs : List String) (tbl : List (String × String))
    (c : String) (h : tbl.any (fun r => r.1 = c) = true) :
    (seedLangFold langs tbl).any (fun r => r.1 = c) = true := by
  induction langs generalizing tbl with
  | nil => exact h
  | cons a as ih => exact ih _ (insertLanguageRow_mono tbl a (pyUpper a) c h)

theorem seedLangFold_present (langs : List String) (c : String) :
    ∀ tbl, c ∈ langs → (seedLangFold langs tbl).any (fun r => r.1 = c) = true := by
  induction langs with
  | nil =>
    intro tbl h
    exact absurd h (List.not_mem_nil c)
  | cons a as ih =>
    intro tbl h
    rcases List.mem_cons.mp h with rfl | h2
    · exact seedLangFold_mono as _ c (insertLanguageRow_present tbl c (pyUpper c))
    · exact ih _ h2

theorem seedLangFold_noop (langs : List String) (tbl : List (String × String))
    (h : ∀ c ∈ langs, tbl.any (fun r => r.1 = c) = true) :
    seedLangFold langs tbl = tbl := by
  induction langs with
  | nil => rfl
  | cons a as ih =>
    show seedLangFold as (insertLanguageRow tbl a (pyUpper a)) = tbl
    rw [show insertLanguageRow tbl a (pyUpper a) = tbl from by
      unfold insertLanguageRow
      rw [if_pos (h a (List.mem_cons_self a as))]]
    exact ih (fun c hc => h c (List.mem_cons_of_mem a hc))

theorem insertModuleRow_countP (tbl : List (String × Bool)) (m name : String)
    (h : tbl.any (fun r => r.1 = name) = true) :
    (insertModuleRow tbl m).countP (fun r => r.1 = name) =
      tbl.countP (fun r => r.1 = name) ∧
    (insertModuleRow tbl m).any (fun r => r.1 = name) = true := by
  unfold insertModuleRow
  split
  · exact ⟨rfl, h⟩
  · next hne =>
    have hmn : m ≠ name := by
      intro rfl'
      subst rfl'
      exact hne h
    constructor
    · rw [List.countP_append]
      simp [List.countP_cons, hmn]
    · simp [List.any_append, h]

theorem modulesFold_countP (mods : List String) (tbl : List (String × Bool))
    (name : String) (h : tbl.any (fun r => r.1 = name) = true) :
    (mods.foldl insertModuleRow tbl).countP (fun r => r.1 = name) =
      tbl.countP (fun r => r.1 = name) ∧
    (mods.foldl insertModuleRow tbl).any (fun r => r.1 = name) = true := by
  induction mods generalizing tbl with
  | nil => exact ⟨rfl, h⟩
  | cons a as ih =>
    obtain ⟨hc, hp⟩ := insertModuleRow_countP tbl a name h
    obtain ⟨hc2, hp2⟩ := ih (insertModuleRow tbl a) hp
    exact ⟨hc2.trans hc, hp2⟩

/-- C6: seed_languages is idempotent — running it a second time against the
database state the first run produced leaves the languages table with the
same row count (in fact the same rows); and seed_modules invoked with a
module name already present leaves that name's row count unchanged (no
duplicate row) and reports the success message, not a failure. -/
theorem seed_operations_idempotent :
    (∀ (langs : List String) (db : Database),
      tableRowCount
        (seed_languages none langs (seed_languages none langs db).2).2.languages =
      tableRowCount (seed_languages none langs db).2.languages) ∧
    (∀ (db : Database) (tbl : List (String × Bool)) (name : String)
        (mods : List String), db.modules = some tbl →
      tbl.any (fun r => r.1 = name) = true →
      ((seed_modules none db mods).2.modules.getD []).countP
          (fun r => r.1 = name) = tbl.countP (fun r => r.1 = name) ∧
      (seed_modules none db mods).1 = "✔️ Modules seeded") := by
  constructor
  · intro langs db
    show tableRowCount (some (seedLangFold langs
      (seedLangFold langs (db.languages.getD [])))) =
      tableRowCount (some (seedLangFold langs (db.languages.getD [])))
    rw [seedLangFold_noop langs _
      (fun c hc => seedLangFold_present langs c (db.languages.getD []) hc)]
  · intro db tbl name mods hmod hname
    have hgd : db.modules.getD [] = tbl := by rw [hmod]; rfl
    refine ⟨?_, rfl⟩
    show (mods.foldl insertModuleRow (db.modules.getD [])).countP
      (fun r => r.1 = name) = tbl.countP (fun r => r.1 = name)
    rw [hgd]
    exact (modulesFold_countP mods tbl name hname).1

/-- C6 witness: seeding twice with two codes, and re-seeding a module name
already present. -/
theorem seed_operations_idempotent_witness :
    tableRowCount
        (seed_languages none ["en", "fr"]
          (seed_languages none ["en", "fr"] {}).2).2.languages =
      tableRowCount (seed_languages none ["en", "fr"] {}).2.languages ∧
    (((seed_modules none { modules := some [("CRM", true)] }
        ["CRM", "HR"]).2.modules.getD []).countP (fun r => r.1 = "CRM") =
      [("CRM", true)].countP (fun r => r.1 = "CRM") ∧
      (seed_modules none { modules := some [("CRM", true)] } ["CRM", "HR"]).1 =
        "✔️ Modules seeded") :=
  ⟨seed_operations_idempotent.1 ["en", "fr"] {},
   seed_operations_idempotent.2 { modules := some [("CRM", true)] }
     [("CRM", true)] "CRM" ["CRM", "HR"] rfl (by decide)⟩

/-! ## Credential round trip and error behaviour -/

/-- Well-typed credentials record: the port field holds an int, the ssl
field a bool, every other field a string (the documented coercions). -/
def wellTypedCredB : String × CredValue → Bool
  | (k, .int _) => k == "port"
  | (k, .bool _) => k == "ssl"
  | (k, .str _) => !(k == "port") && !(k == "ssl")

theorem credCast?_pyStr (k : String) (v : CredValue)
    (h : wellTypedCredB (k, v) = true) : credCast? k (pyStr v) = some v := by
  cases v with
  | int i =>
    have hk : k = "port" := by simpa [wellTypedCredB] using h
    subst hk
    simp [credCast?, pyStr, parseInt?_intRepr]
  | bool b =>
    have hk : k = "ssl" := by simpa [wellTypedCredB] using h
    subst hk
    cases b <;> decide
  | str s =>
    have hk : ¬(k = "port") ∧ ¬(k = "ssl") := by
      simpa [wellTypedCredB, -Bool.not_eq_true] using h
    simp [credCast?, pyStr, hk.1, hk.2]

theorem mapM_credCast (creds : List (String × CredValue))
    (hkeys : ∀ p ∈ creds, pyLower p.1 = p.1)
    (htyped : ∀ p ∈ creds, wellTypedCredB p = true) :
    (creds.map (fun kv => (pyLower kv.1, pyStr kv.2))).mapM
      (fun kv => (credCast? kv.1 kv.2).map (fun v => (kv.1, v))) = some creds := by
  induction creds with
  | nil => rfl
  | cons p rest ih =>
    obtain ⟨k, v⟩ := p
    have hk : pyLower k = k := hkeys (k, v) (List.mem_cons_self _ _)
    simp only [List.map_cons, List.mapM_cons, hk]
    rw [credCast?_pyStr k v (htyped (k, v) (List.mem_cons_self _ _))]
    rw [ih (fun q hq => hkeys q (List.mem_cons_of_mem _ hq))
      (fun q hq => htyped q (List.mem_cons_of_mem _ hq))]
    rfl

/-- C7 counterexample: the profile name " " is non-empty, yet writing under
it fails with the blank-profile error (the source asserts the profile is
non-empty after stripping), so write-then-read does not return the record —
the claim's "every non-empty profile name" is too wide. -/
theorem write_read_roundtrip_whitespace_profile :
    (" " : String) ≠ "" ∧
    (write_db_creds " " [("db_name", CredValue.str "x")] none {} []).bind
        (read_db_creds " ") ≠
      .ok [("db_name", CredValue.str "x")] := by
  refine ⟨by decide, ?_⟩
  intro h
  rw [show (write_db_creds " " [("db_name", CredValue.str "x")] none {} []).bind
      (read_db_creds " ") = Except.error CredError.invalidProfile from rfl] at h
  exact Except.noConfusion h

/-- C7 (amended): for every profile name that is non-empty after trimming
whitespace, writing a well-typed credentials record (lowercase field names,
an integer port, a boolean ssl flag, strings elsewhere) and reading that
profile back returns exactly the original record: the port comes back as an
integer, the ssl flag as a boolean, and every other field as the stored
string. -/
theorem write_read_roundtrip (profile : String)
    (creds : List (String × CredValue)) (pem : PemOracle) (store : CredStore)
    (hp : pyStrip profile ≠ "")
    (hkeys : ∀ p ∈ creds, pyLower p.1 = p.1)
    (htyped : ∀ p ∈ creds, wellTypedCredB p = true) :
    (write_db_creds profile creds none pem store).bind (read_db_creds profile) =
      .ok creds := by
  unfold write_db_creds
  rw [if_neg hp]
  show read_db_creds profile
    ((profile, creds.map (fun kv => (pyLower kv.1, pyStr kv.2))) :: store) = .ok creds
  unfold read_db_creds
  rw [show storeGet
      ((profile, creds.map (fun kv => (pyLower kv.1, pyStr kv.2))) :: store) profile =
      some (creds.map (fun kv => (pyLower kv.1, pyStr kv.2))) from by
    unfold storeGet
    rw [if_pos rfl]]
  dsimp only
  rw [mapM_credCast creds hkeys htyped]

/-- C7 witness: the standard credentials record of a new tenant database
round-trips through the store. -/
theorem write_read_roundtrip_witness :
    (write_db_creds "acme_co"
        [("db_name", .str "acme_co"), ("user", .str "acme_co_admin"),
         ("password", .str "s3cret!"), ("host", .str "127.0.0.1"),
         ("port", .int 5432), ("ssl", .bool false)] none {} []).bind
      (read_db_creds "acme_co") =
      .ok [("db_name", .str "acme_co"), ("user", .str "acme_co_admin"),
           ("password", .str "s3cret!"), ("host", .str "127.0.0.1"),
           ("port", .int 5432), ("ssl", .bool false)] :=
  write_read_roundtrip "acme_co" _ {} [] (by decide) (by decide) (by decide)

/-- C8: write_db_creds rejects every profile name that is empty after
stripping whitespace with the invalid-profile error and succeeds on every
other profile name; read_db_creds answers the profile-not-found error for
every profile with no stored record. -/
theorem credential_store_errors :
    (∀ (profile : String) (creds : List (String × CredValue))
        (cert : Option String) (pem : PemOracle) (store : CredStore),
      pyStrip profile = "" →
      write_db_creds profile creds cert pem store = .error .invalidProfile) ∧
    (∀ (profile : String) (creds : List (String × CredValue))
        (cert : Option String) (pem : PemOracle) (store : CredStore),
      pyStrip profile ≠ "" →
      ∃ store', write_db_creds profile creds cert pem store = .ok store') ∧
    (∀ (profile : String) (store : CredStore), storeGet store profile = none →
      read_db_creds profile store = .error .profileNotFound) := by
  refine ⟨?_, ?_, ?_⟩
  · intro profile creds cert pem store h
    unfold write_db_creds
    rw [if_pos h]
  · intro profile creds cert pem store h
    unfold write_db_creds
    rw [if_neg h]
    exact ⟨_, rfl⟩
  · intro profile store h
    unfold read_db_creds
    rw [h]

/-- C8 witness: a whitespace profile is rejected, a proper one accepted,
and a never-written profile is not found. -/
theorem credential_store_errors_witness :
    write_db_creds "  " [] none {} [] = .error .invalidProfile ∧
    (∃ store', write_db_creds "acme" [] none {} [] = .ok store') ∧
    read_db_creds "ghost" [] = .error .profileNotFound :=
  ⟨credential_store_errors.1 "  " [] none {} [] (by decide),
   credential_store_errors.2.1 "acme" [] none {} [] (by decide),
   credential_store_errors.2.2 "ghost" [] rfl⟩

/-! ## Generated admin identity and password -/

theorem password_charset_length : PASSWORD_CHARSET.length = 76 := rfl

theorem generate_password_length (rng : Nat → Nat) (n : Nat) :
    (generate_password rng n).length = n := by
  show ((List.range n).map _).length = n
  rw [List.length_map, List.length_range]

theorem generate_password_chars (rng : Nat → Nat) (n : Nat) :
    ∀ c ∈ (generate_password rng n).data, c ∈ PASSWORD_CHARSET := by
  intro c hc
  rcases List.mem_map.mp hc with ⟨i, _, rfl⟩
  have hlt : rng i % PASSWORD_CHARSET.length < PASSWORD_CHARSET.length :=
    Nat.mod_lt _ (by decide)
  rw [List.getD_eq_getElem _ _ hlt]
  exact List.getElem_mem hlt

/-- C9: in create-new mode the provisioner returns credentials whose user
is the database name plus the fixed "_admin" suffix and whose password is
the generated 20-character password; every generated password, whatever
the randomness oracle yields, has length 20 (hence at least 20) and draws
each character from the mixed charset, which contains letters, digits and
punctuation. -/
theorem create_standard_db_generated_identity (rng : Nat → Nat)
    (store : CredStore) (db_name : String) (h : pyStrip db_name ≠ "") :
    (create_standard_db rng none store db_name).1.1 = true ∧
    (create_standard_db rng none store db_name).1.2.1 =
      [("db_name", .str db_name), ("user", .str (db_name ++ "_admin")),
       ("password", .str (generate_password rng 20)),
       ("host", .str POSTGRES_HOST), ("port", .int POSTGRES_PORT),
       ("ssl", .bool false)] ∧
    20 ≤ (generate_password rng 20).length ∧
    (∀ c ∈ (generate_password rng 20).data, c ∈ PASSWORD_CHARSET) ∧
    (∃ c ∈ PASSWORD_CHARSET, c.isAlpha = true) ∧
    (∃ c ∈ PASSWORD_CHARSET, c.isDigit = true) ∧
    (∃ c ∈ PASSWORD_CHARSET, c.isAlphanum = false) := by
  have hw : write_db_creds db_name
      [("db_name", .str db_name), ("user", .str (db_name ++ "_admin")),
       ("password", .str (generate_password rng 20)),
       ("host", .str POSTGRES_HOST), ("port", .int POSTGRES_PORT),
       ("ssl", .bool false)] none {} store =
      .ok ((db_name,
        ([("db_name", CredValue.str db_name), ("user", .str (db_name ++ "_admin")),
          ("password", .str (generate_password rng 20)),
          ("host", .str POSTGRES_HOST), ("port", .int POSTGRES_PORT),
          ("ssl", .bool false)] :
            List (String × CredValue)).map
          (fun kv => (pyLower kv.1, pyStr kv.2))) :: store) := by
    unfold write_db_creds
    rw [if_neg h]
  refine ⟨?_, ?_, ?_, generate_password_chars rng 20, ?_, ?_, ?_⟩
  · unfold create_standard_db
    dsimp only
    rw [hw]
  · unfold create_standard_db
    dsimp only
    rw [hw]
  · rw [generate_password_length]
  · exact ⟨'a', by decide, by decide⟩
  · exact ⟨'0', by decide, by decide⟩
  · exact ⟨'!', by decide, by decide⟩

/-- C9 witness at a concrete database name and randomness oracle. -/
theorem create_standard_db_generated_identity_witness :
    (create_standard_db (fun i => i) none [] "acme_co").1.1 = true ∧
    (create_standard_db (fun i => i) none [] "acme_co").1.2.1 =
      [("db_name", .str "acme_co"), ("user", .str ("acme_co" ++ "_admin")),
       ("password", .str (generate_password (fun i => i) 20)),
       ("host", .str POSTGRES_HOST), ("port", .int POSTGRES_PORT),
       ("ssl", .bool false)] ∧
    20 ≤ (generate_password (fun i => i) 20).length ∧
    (∀ c ∈ (generate_password (fun i => i) 20).data, c ∈ PASSWORD_CHARSET) ∧
    (∃ c ∈ PASSWORD_CHARSET, c.isAlpha = true) ∧
    (∃ c ∈ PASSWORD_CHARSET, c.isDigit = true) ∧
    (∃ c ∈ PASSWORD_CHARSET, c.isAlphanum = false) :=
  create_standard_db_generated_identity (fun i => i) [] "acme_co" (by decide)

end Accompany
